import Mathlib

/-!
Verification development for the pingoc DNS core: a shallow embedding of the
message buffer, the header / question / record / packet codecs and the
recursive resolver, translated from `src/dns/*.rs`, together with theorems
settling the specification claims.

Modelling conventions:
* Rust machine integers (`u8`, `u16`, `u32`, `u64`, `u128`) are `Nat`; the
  narrowing casts `as uN` that appear in the source are written `% 2 ^ N`.
* Rust `String` values (domain names, record texts) are their UTF-8 byte
  sequences, `List Nat`.
* A method taking `&mut self` and returning `Result<T, E>` becomes a function
  `PacketBuffer → Except E T × PacketBuffer`: the state component is returned
  in the error case as well, exactly as the Rust caller keeps the mutated
  buffer when a method fails.
-/

/-- Error type of the buffer layer, from `PacketBufferError` in
`src/dns/buffer.rs` (the `FromUtf8Error` payload is dropped). -/
inductive PacketBufferError where
  | PositionOutOfBounds (pos : Nat)
  | EndOfBuffer
  | InvalidLabelLength
  | JumpLimitExceeded
  | Utf8ConversionError
deriving DecidableEq, Repr

/-- The 512-byte DNS packet buffer with its cursor, from `PacketBuffer` in
`src/dns/buffer.rs`.  The byte array `[u8; 512]` is a list of bytes. -/
structure PacketBuffer where
  buffer : List Nat
  pos : Nat
deriving DecidableEq, Repr

/-- `PacketBuffer::new`: 512 zero bytes, cursor at 0. -/
def PacketBuffer.new : PacketBuffer := ⟨List.replicate 512 0, 0⟩

/-- Byte lookup used by `PacketBuffer::get`: bounds check against
`self.buffer.len()`, then the indexed byte. -/
def bufGet (buf : List Nat) (pos : Nat) : Except PacketBufferError Nat :=
  if pos ≥ buf.length then .error .EndOfBuffer else .ok (buf.getD pos 0)

/-- Byte-range lookup used by `PacketBuffer::get_bytes`. -/
def bufGetBytes (buf : List Nat) (pos len : Nat) : Except PacketBufferError (List Nat) :=
  if pos + len > buf.length then .error .EndOfBuffer
  else .ok ((buf.drop pos).take len)

/-- `PacketBuffer::get`: byte at `pos`, no cursor movement. -/
def PacketBuffer.get (b : PacketBuffer) (pos : Nat) : Except PacketBufferError Nat :=
  bufGet b.buffer pos

/-- `PacketBuffer::get_bytes`: `len` bytes from `pos`, no cursor movement. -/
def PacketBuffer.get_bytes (b : PacketBuffer) (pos len : Nat) :
    Except PacketBufferError (List Nat) :=
  bufGetBytes b.buffer pos len

/-- `PacketBuffer::seek`: reposition the cursor, rejecting positions past the
end of the buffer. -/
def PacketBuffer.seek (b : PacketBuffer) (pos : Nat) :
    Except PacketBufferError Unit × PacketBuffer :=
  if pos ≥ b.buffer.length then (.error (.PositionOutOfBounds pos), b)
  else (.ok (), { b with pos := pos })

/-- `PacketBuffer::read`: one byte at the cursor, cursor advances on success. -/
def PacketBuffer.read (b : PacketBuffer) : Except PacketBufferError Nat × PacketBuffer :=
  match b.get b.pos with
  | .error e => (.error e, b)
  | .ok v => (.ok v, { b with pos := b.pos + 1 })

/-- `PacketBuffer::read_u16`: two big-endian bytes. -/
def PacketBuffer.read_u16 (b : PacketBuffer) : Except PacketBufferError Nat × PacketBuffer :=
  match b.read with
  | (.error e, b) => (.error e, b)
  | (.ok hi, b) =>
    match b.read with
    | (.error e, b) => (.error e, b)
    | (.ok lo, b) => (.ok ((hi <<< 8) ||| lo), b)

/-- `PacketBuffer::read_u32`. -/
def PacketBuffer.read_u32 (b : PacketBuffer) : Except PacketBufferError Nat × PacketBuffer :=
  match b.read_u16 with
  | (.error e, b) => (.error e, b)
  | (.ok hi, b) =>
    match b.read_u16 with
    | (.error e, b) => (.error e, b)
    | (.ok lo, b) => (.ok ((hi <<< 16) ||| lo), b)

/-- `PacketBuffer::read_u64`. -/
def PacketBuffer.read_u64 (b : PacketBuffer) : Except PacketBufferError Nat × PacketBuffer :=
  match b.read_u32 with
  | (.error e, b) => (.error e, b)
  | (.ok hi, b) =>
    match b.read_u32 with
    | (.error e, b) => (.error e, b)
    | (.ok lo, b) => (.ok ((hi <<< 32) ||| lo), b)

/-- `PacketBuffer::read_u128`. -/
def PacketBuffer.read_u128 (b : PacketBuffer) : Except PacketBufferError Nat × PacketBuffer :=
  match b.read_u64 with
  | (.error e, b) => (.error e, b)
  | (.ok hi, b) =>
    match b.read_u64 with
    | (.error e, b) => (.error e, b)
    | (.ok lo, b) => (.ok ((hi <<< 64) ||| lo), b)

/-- `PacketBuffer::read_bytes`: `len` bytes at the cursor, cursor advances. -/
def PacketBuffer.read_bytes (b : PacketBuffer) (len : Nat) :
    Except PacketBufferError (List Nat) × PacketBuffer :=
  if b.pos + len > b.buffer.length then (.error .EndOfBuffer, b)
  else (.ok ((b.buffer.drop b.pos).take len), { b with pos := b.pos + len })

/-- `PacketBuffer::write`: store one byte at the cursor (the `u8` argument is
represented as `value % 256`), cursor advances. -/
def PacketBuffer.write (b : PacketBuffer) (value : Nat) :
    Except PacketBufferError Unit × PacketBuffer :=
  if b.pos ≥ b.buffer.length then (.error .EndOfBuffer, b)
  else (.ok (), ⟨b.buffer.set b.pos (value % 256), b.pos + 1⟩)

/-- `PacketBuffer::write_u16`: high byte then low byte
(`(value >> 8) as u8`, `value as u8`). -/
def PacketBuffer.write_u16 (b : PacketBuffer) (value : Nat) :
    Except PacketBufferError Unit × PacketBuffer :=
  match b.write ((value >>> 8) % 256) with
  | (.error e, b) => (.error e, b)
  | (.ok _, b) => b.write (value % 256)

/-- `PacketBuffer::write_u32`. -/
def PacketBuffer.write_u32 (b : PacketBuffer) (value : Nat) :
    Except PacketBufferError Unit × PacketBuffer :=
  match b.write_u16 ((value >>> 16) % 65536) with
  | (.error e, b) => (.error e, b)
  | (.ok _, b) => b.write_u16 (value % 65536)

/-- `PacketBuffer::write_u64`. -/
def PacketBuffer.write_u64 (b : PacketBuffer) (value : Nat) :
    Except PacketBufferError Unit × PacketBuffer :=
  match b.write_u32 ((value >>> 32) % 4294967296) with
  | (.error e, b) => (.error e, b)
  | (.ok _, b) => b.write_u32 (value % 4294967296)

/-- `PacketBuffer::write_u128`. -/
def PacketBuffer.write_u128 (b : PacketBuffer) (value : Nat) :
    Except PacketBufferError Unit × PacketBuffer :=
  match b.write_u64 ((value >>> 64) % 18446744073709551616) with
  | (.error e, b) => (.error e, b)
  | (.ok _, b) => b.write_u64 (value % 18446744073709551616)

/-- `PacketBuffer::write_bytes`: write each byte of the slice in order. -/
def PacketBuffer.write_bytes (b : PacketBuffer) (bytes : List Nat) :
    Except PacketBufferError Unit × PacketBuffer :=
  match bytes with
  | [] => (.ok (), b)
  | x :: xs =>
    match b.write x with
    | (.error e, b) => (.error e, b)
    | (.ok _, b) => b.write_bytes xs

/-- Continuation-byte test for UTF-8 decoding (`0x80 ..= 0xBF`). -/
def isCont (b : Nat) : Bool := 0x80 ≤ b && b ≤ 0xBF

/-- UTF-8 validity of a byte sequence, the success condition of Rust's
`String::from_utf8` used by `read_query_name` on each label. -/
def validUtf8 : List Nat → Bool
  | [] => true
  | b :: rest =>
    if b ≤ 0x7F then validUtf8 rest
    else if 0xC2 ≤ b && b ≤ 0xDF then
      match rest with
      | c1 :: rest2 => isCont c1 && validUtf8 rest2
      | [] => false
    else if b == 0xE0 then
      match rest with
      | c1 :: c2 :: rest2 => (0xA0 ≤ c1 && c1 ≤ 0xBF) && isCont c2 && validUtf8 rest2
      | _ => false
    else if (0xE1 ≤ b && b ≤ 0xEC) || b == 0xEE || b == 0xEF then
      match rest with
      | c1 :: c2 :: rest2 => isCont c1 && isCont c2 && validUtf8 rest2
      | _ => false
    else if b == 0xED then
      match rest with
      | c1 :: c2 :: rest2 => (0x80 ≤ c1 && c1 ≤ 0x9F) && isCont c2 && validUtf8 rest2
      | _ => false
    else if b == 0xF0 then
      match rest with
      | c1 :: c2 :: c3 :: rest2 =>
        (0x90 ≤ c1 && c1 ≤ 0xBF) && isCont c2 && isCont c3 && validUtf8 rest2
      | _ => false
    else if 0xF1 ≤ b && b ≤ 0xF3 then
      match rest with
      | c1 :: c2 :: c3 :: rest2 => isCont c1 && isCont c2 && isCont c3 && validUtf8 rest2
      | _ => false
    else if b == 0xF4 then
      match rest with
      | c1 :: c2 :: c3 :: rest2 =>
        (0x80 ≤ c1 && c1 ≤ 0x8F) && isCont c2 && isCont c3 && validUtf8 rest2
      | _ => false
    else false

/-- Rust's `String::from_utf8_lossy` on a byte sequence (used by the TXT
record decoder): invalid subsequences are replaced by U+FFFD
(bytes `EF BF BD`), consuming the maximal valid prefix of each sequence. -/
def utf8Lossy : List Nat → List Nat
  | [] => []
  | b :: rest =>
    if b ≤ 0x7F then b :: utf8Lossy rest
    else if 0xC2 ≤ b && b ≤ 0xDF then
      match rest with
      | c1 :: rest2 =>
        if isCont c1 then b :: c1 :: utf8Lossy rest2
        else 0xEF :: 0xBF :: 0xBD :: utf8Lossy (c1 :: rest2)
      | [] => [0xEF, 0xBF, 0xBD]
    else if b == 0xE0 then
      match rest with
      | c1 :: rest2 =>
        if 0xA0 ≤ c1 && c1 ≤ 0xBF then
          match rest2 with
          | c2 :: rest3 =>
            if isCont c2 then b :: c1 :: c2 :: utf8Lossy rest3
            else 0xEF :: 0xBF :: 0xBD :: utf8Lossy (c2 :: rest3)
          | [] => [0xEF, 0xBF, 0xBD]
        else 0xEF :: 0xBF :: 0xBD :: utf8Lossy (c1 :: rest2)
      | [] => [0xEF, 0xBF, 0xBD]
    else if (0xE1 ≤ b && b ≤ 0xEC) || b == 0xEE || b == 0xEF then
      match rest with
      | c1 :: rest2 =>
        if isCont c1 then
          match rest2 with
          | c2 :: rest3 =>
            if isCont c2 then b :: c1 :: c2 :: utf8Lossy rest3
            else 0xEF :: 0xBF :: 0xBD :: utf8Lossy (c2 :: rest3)
          | [] => [0xEF, 0xBF, 0xBD]
        else 0xEF :: 0xBF :: 0xBD :: utf8Lossy (c1 :: rest2)
      | [] => [0xEF, 0xBF, 0xBD]
    else if b == 0xED then
      match rest with
      | c1 :: rest2 =>
        if 0x80 ≤ c1 && c1 ≤ 0x9F then
          match rest2 with
          | c2 :: rest3 =>
            if isCont c2 then b :: c1 :: c2 :: utf8Lossy rest3
            else 0xEF :: 0xBF :: 0xBD :: utf8Lossy (c2 :: rest3)
          | [] => [0xEF, 0xBF, 0xBD]
        else 0xEF :: 0xBF :: 0xBD :: utf8Lossy (c1 :: rest2)
      | [] => [0xEF, 0xBF, 0xBD]
    else if b == 0xF0 then
      match rest with
      | c1 :: rest2 =>
        if 0x90 ≤ c1 && c1 ≤ 0xBF then
          match rest2 with
          | c2 :: rest3 =>
            if isCont c2 then
              match rest3 with
              | c3 :: rest4 =>
                if isCont c3 then b :: c1 :: c2 :: c3 :: utf8Lossy rest4
                else 0xEF :: 0xBF :: 0xBD :: utf8Lossy (c3 :: rest4)
              | [] => [0xEF, 0xBF, 0xBD]
            else 0xEF :: 0xBF :: 0xBD :: utf8Lossy (c2 :: rest3)
          | [] => [0xEF, 0xBF, 0xBD]
        else 0xEF :: 0xBF :: 0xBD :: utf8Lossy (c1 :: rest2)
      | [] => [0xEF, 0xBF, 0xBD]
    else if 0xF1 ≤ b && b ≤ 0xF3 then
      match rest with
      | c1 :: rest2 =>
        if isCont c1 then
          match rest2 with
          | c2 :: rest3 =>
            if isCont c2 then
              match rest3 with
              | c3 :: rest4 =>
                if isCont c3 then b :: c1 :: c2 :: c3 :: utf8Lossy rest4
                else 0xEF :: 0xBF :: 0xBD :: utf8Lossy (c3 :: rest4)
              | [] => [0xEF, 0xBF, 0xBD]
            else 0xEF :: 0xBF :: 0xBD :: utf8Lossy (c2 :: rest3)
          | [] => [0xEF, 0xBF, 0xBD]
        else 0xEF :: 0xBF :: 0xBD :: utf8Lossy (c1 :: rest2)
      | [] => [0xEF, 0xBF, 0xBD]
    else if b == 0xF4 then
      match rest with
      | c1 :: rest2 =>
        if 0x80 ≤ c1 && c1 ≤ 0x8F then
          match rest2 with
          | c2 :: rest3 =>
            if isCont c2 then
              match rest3 with
              | c3 :: rest4 =>
                if isCont c3 then b :: c1 :: c2 :: c3 :: utf8Lossy rest4
                else 0xEF :: 0xBF :: 0xBD :: utf8Lossy (c3 :: rest4)
              | [] => [0xEF, 0xBF, 0xBD]
            else 0xEF :: 0xBF :: 0xBD :: utf8Lossy (c2 :: rest3)
          | [] => [0xEF, 0xBF, 0xBD]
        else 0xEF :: 0xBF :: 0xBD :: utf8Lossy (c1 :: rest2)
      | [] => [0xEF, 0xBF, 0xBD]
    else 0xEF :: 0xBF :: 0xBD :: utf8Lossy rest

/-- Rust `str::split('.')` on the byte representation of a name: byte 46 is
the separator (an empty string yields one empty label, as in Rust). -/
def splitOnDot : List Nat → List (List Nat)
  | [] => [[]]
  | b :: rest =>
    if b == 46 then [] :: splitOnDot rest
    else
      match splitOnDot rest with
      | [] => [[b]]
      | l :: ls => (b :: l) :: ls

/-- The loop of `PacketBuffer::read_query_name` from `src/dns/buffer.rs`,
with the buffer bytes `buf` fixed (the loop reads only `self.buffer`), the
real cursor `realPos` threaded separately (it is moved once, just past the
first compression pointer), and an explicit fuel argument; `none` means the
fuel was exhausted, which the bound chosen in `read_query_name` makes
unreachable (each iteration either raises the jump count, capped at 6, or
strictly advances a position that stays below the buffer length). -/
def read_name_loop (buf : List Nat) :
    Nat → Nat → Nat → List (List Nat) → Bool → Nat →
    Option (Except PacketBufferError (List (List Nat) × Nat × Bool) × Nat)
  | 0, _, _, _, _, _ => none
  | _fuel + 1, realPos, pos, result, jumped, jumps =>
    if jumps > 5 then some (.error .JumpLimitExceeded, realPos)
    else
      match bufGet buf pos with
      | .error e => some (.error e, realPos)
      | .ok len =>
        if (len &&& 0xC0) == 0xC0 then
          if !jumped && pos + 2 ≥ buf.length then
            some (.error (.PositionOutOfBounds (pos + 2)), realPos)
          else
            let realPos' := if !jumped then pos + 2 else realPos
            match bufGet buf (pos + 1) with
            | .error e => some (.error e, realPos')
            | .ok b2 =>
              read_name_loop buf _fuel realPos' (((len ^^^ 0xC0) <<< 8) ||| b2)
                result true (jumps + 1)
        else
          if len == 0 then some (.ok (result, pos + 1, jumped), realPos)
          else
            match bufGetBytes buf (pos + 1) len with
            | .error e => some (.error e, realPos)
            | .ok labelBytes =>
              if validUtf8 labelBytes then
                read_name_loop buf _fuel realPos (pos + 1 + len)
                  (result ++ [labelBytes]) jumped jumps
              else some (.error .Utf8ConversionError, realPos)

/-- `PacketBuffer::read_query_name`: decompress a domain name at the cursor;
labels are joined with `.` (byte 46); after a plain (unjumped) read the
cursor is repositioned past the terminator with `seek`. -/
def PacketBuffer.read_query_name (b : PacketBuffer) :
    Except PacketBufferError (List Nat) × PacketBuffer :=
  match read_name_loop b.buffer (7 * (b.buffer.length + 1) + 1) b.pos b.pos [] false 0 with
  | none => (.error .JumpLimitExceeded, b)
  | some (.error e, realPos) => (.error e, { b with pos := realPos })
  | some (.ok (labels, pos, jumped), realPos) =>
    let b := { b with pos := realPos }
    if !jumped then
      match b.seek pos with
      | (.error e, b) => (.error e, b)
      | (.ok _, b) => (.ok (List.intercalate [46] labels), b)
    else (.ok (List.intercalate [46] labels), b)

/-- The label loop of `PacketBuffer::write_query_name`: `origPos` is the
cursor position saved on entry, restored before reporting an oversized
label; the zero terminator is written after the last label. -/
def writeLabelsAux (origPos : Nat) :
    List (List Nat) → PacketBuffer → Except PacketBufferError Unit × PacketBuffer
  | [], b => b.write 0
  | label :: labels, b =>
    if label.length > 63 then (.error .InvalidLabelLength, { b with pos := origPos })
    else
      match b.write label.length with
      | (.error e, b) => (.error e, b)
      | (.ok _, b) =>
        match b.write_bytes label with
        | (.error e, b) => (.error e, b)
        | (.ok _, b) => writeLabelsAux origPos labels b

/-- `PacketBuffer::write_query_name`: split the name on `.`, emit each label
length-prefixed, terminate with a zero octet; never emits compression. -/
def PacketBuffer.write_query_name (b : PacketBuffer) (name : List Nat) :
    Except PacketBufferError Unit × PacketBuffer :=
  writeLabelsAux b.pos (splitOnDot name) b

/-- Error type of the DNS layer.  The Rust code boxes every failure as
`Box<dyn Error>`; here the two possible kinds are distinguished: a buffer
error, or the process abort raised by `DnsResponseCode::from_u8` on an
out-of-range response code (the `panic!` is modelled as this variant). -/
inductive DnsError where
  | buffer (e : PacketBufferError)
  | panicInvalidResponseCode
deriving DecidableEq, Repr

/-- Sequencing helper modelling Rust's `?` on a buffer-layer call inside a
DNS-layer function: an error is boxed into `DnsError` and returned with the
buffer state as it stands. -/
def bstep {α β : Type} (x : Except PacketBufferError α × PacketBuffer)
    (f : α → PacketBuffer → Except DnsError β × PacketBuffer) :
    Except DnsError β × PacketBuffer :=
  match x with
  | (.error e, b) => (.error (.buffer e), b)
  | (.ok v, b) => f v b

/-- Sequencing helper modelling Rust's `?` on a DNS-layer call. -/
def dstep {α β : Type} (x : Except DnsError α × PacketBuffer)
    (f : α → PacketBuffer → Except DnsError β × PacketBuffer) :
    Except DnsError β × PacketBuffer :=
  match x with
  | (.error e, b) => (.error e, b)
  | (.ok v, b) => f v b

/-- `DnsResponseCode` from `src/dns/header.rs`. -/
inductive DnsResponseCode where
  | NoError
  | FormErr
  | ServFail
  | NxDomain
  | NotImp
  | Refused
deriving DecidableEq, Repr

/-- The numeric discriminant of a response code (the Rust enum is
`#[repr]`-free but its variants carry the values 0..5, used by the
`self.response_code as u16` cast in `get_flags`). -/
def DnsResponseCode.toNat : DnsResponseCode → Nat
  | .NoError => 0
  | .FormErr => 1
  | .ServFail => 2
  | .NxDomain => 3
  | .NotImp => 4
  | .Refused => 5

/-- `DnsResponseCode::from_u8`: values 0..5 map to the six variants; any
other value hits `panic!("Invalid response code")`, modelled as `none`. -/
def DnsResponseCode.from_u8 (value : Nat) : Option DnsResponseCode :=
  match value with
  | 0 => some .NoError
  | 1 => some .FormErr
  | 2 => some .ServFail
  | 3 => some .NxDomain
  | 4 => some .NotImp
  | 5 => some .Refused
  | _ => none

/-- `DnsHeader` from `src/dns/header.rs`. -/
structure DnsHeader where
  id : Nat
  query_response : Bool
  opcode : Nat
  authoritative_answer : Bool
  truncated_message : Bool
  recursion_desired : Bool
  recursion_available : Bool
  reserved : Nat
  response_code : DnsResponseCode
  question_count : Nat
  answer_count : Nat
  authority_count : Nat
  additional_count : Nat
deriving DecidableEq, Repr

/-- `DnsHeader::new`: all-zero header, response code `NoError`. -/
def DnsHeader.new : DnsHeader :=
  ⟨0, false, 0, false, false, false, false, 0, .NoError, 0, 0, 0, 0⟩

/-- `DnsHeader::set_flags`: unpack a 16-bit flags word into the structured
fields using the bit masks of the source; the response-code nibble goes
through `from_u8`, whose panic on values 6..15 is modelled as `none`. -/
def DnsHeader.set_flags (h : DnsHeader) (flags : Nat) : Option DnsHeader :=
  match DnsResponseCode.from_u8 ((flags &&& 0x000F) % 256) with
  | none => none
  | some rc =>
    some { h with
      query_response := (flags &&& 0x8000) != 0
      opcode := ((flags &&& 0x7800) >>> 11) % 256
      authoritative_answer := (flags &&& 0x0400) != 0
      truncated_message := (flags &&& 0x0200) != 0
      recursion_desired := (flags &&& 0x0100) != 0
      recursion_available := (flags &&& 0x0080) != 0
      reserved := ((flags &&& 0x0070) >>> 4) % 256
      response_code := rc }

/-- `DnsHeader::get_flags`: repack the structured fields into a 16-bit flags
word with the shifts and ors of the source (`u16` arithmetic, hence the
`% 65536` on the one shift that could overflow). -/
def DnsHeader.get_flags (h : DnsHeader) : Nat :=
  let flags := 0
  let flags := if h.query_response then flags ||| (1 <<< 15) else flags
  let flags := flags ||| ((h.opcode <<< 11) % 65536)
  let flags := if h.authoritative_answer then flags ||| (1 <<< 10) else flags
  let flags := if h.truncated_message then flags ||| (1 <<< 9) else flags
  let flags := if h.recursion_desired then flags ||| (1 <<< 8) else flags
  let flags := if h.recursion_available then flags ||| (1 <<< 7) else flags
  let flags := flags ||| ((h.reserved <<< 4) % 65536)
  flags ||| h.response_code.toNat

/-- `DnsHeader::read`: id, flags word (unpacked through `set_flags`), then
the four section counts. -/
def DnsHeader.read (b : PacketBuffer) : Except DnsError DnsHeader × PacketBuffer :=
  bstep b.read_u16 fun id b =>
  bstep b.read_u16 fun flags b =>
  match ({ DnsHeader.new with id := id } : DnsHeader).set_flags flags with
  | none => (.error .panicInvalidResponseCode, b)
  | some header =>
    bstep b.read_u16 fun question_count b =>
    bstep b.read_u16 fun answer_count b =>
    bstep b.read_u16 fun authority_count b =>
    bstep b.read_u16 fun additional_count b =>
    (.ok { header with
      question_count := question_count
      answer_count := answer_count
      authority_count := authority_count
      additional_count := additional_count }, b)

/-- `DnsHeader::write`: id, repacked flags word, then the four counts as
stored in the header fields. -/
def DnsHeader.write (h : DnsHeader) (b : PacketBuffer) :
    Except DnsError Unit × PacketBuffer :=
  bstep (b.write_u16 h.id) fun _ b =>
  bstep (b.write_u16 h.get_flags) fun _ b =>
  bstep (b.write_u16 h.question_count) fun _ b =>
  bstep (b.write_u16 h.answer_count) fun _ b =>
  bstep (b.write_u16 h.authority_count) fun _ b =>
  bstep (b.write_u16 h.additional_count) fun _ b =>
  (.ok (), b)

/-- `DnsQueryType` from `src/dns/query.rs`. -/
inductive DnsQueryType where
  | A
  | NS
  | CNAME
  | SOA
  | PTR
  | MX
  | TXT
  | AAAA
  | SRV
  | UNKNOWN (value : Nat)
deriving DecidableEq, Repr

/-- `DnsQueryType::from_u16`. -/
def DnsQueryType.from_u16 (value : Nat) : DnsQueryType :=
  match value with
  | 1 => .A
  | 2 => .NS
  | 5 => .CNAME
  | 6 => .SOA
  | 12 => .PTR
  | 15 => .MX
  | 16 => .TXT
  | 28 => .AAAA
  | 33 => .SRV
  | other => .UNKNOWN other

/-- `DnsQueryType::to_u16`. -/
def DnsQueryType.to_u16 : DnsQueryType → Nat
  | .A => 1
  | .NS => 2
  | .CNAME => 5
  | .SOA => 6
  | .PTR => 12
  | .MX => 15
  | .TXT => 16
  | .AAAA => 28
  | .SRV => 33
  | .UNKNOWN value => value

/-- `DnsQueryClass` from `src/dns/query.rs`. -/
inductive DnsQueryClass where
  | IN
  | CH
  | HS
  | NONE
  | ANY
  | RESERVED
  | ReservedPrivate
  | UNASSIGNED
deriving DecidableEq, Repr

/-- `DnsQueryClass::from_u16` (the `0xFF00..=0xFFFF` range pattern becomes
an explicit range test). -/
def DnsQueryClass.from_u16 (value : Nat) : DnsQueryClass :=
  if value == 1 then .IN
  else if value == 3 then .CH
  else if value == 4 then .HS
  else if value == 254 then .NONE
  else if value == 255 then .ANY
  else if value == 0 then .RESERVED
  else if 0xFF00 ≤ value && value ≤ 0xFFFF then .ReservedPrivate
  else .UNASSIGNED

/-- `DnsQueryClass::to_u16`. -/
def DnsQueryClass.to_u16 : DnsQueryClass → Nat
  | .IN => 1
  | .CH => 3
  | .HS => 4
  | .NONE => 254
  | .ANY => 255
  | .RESERVED => 0
  | .ReservedPrivate => 0xFF00
  | .UNASSIGNED => 0xFFFF

/-- `DnsQuestion` from `src/dns/question.rs`. -/
structure DnsQuestion where
  name : List Nat
  query_type : DnsQueryType
  query_class : DnsQueryClass
deriving DecidableEq, Repr

/-- `DnsQuestion::new`: class defaults to `IN`. -/
def DnsQuestion.new (name : List Nat) (query_type : DnsQueryType) : DnsQuestion :=
  ⟨name, query_type, .IN⟩

/-- `DnsQuestion::read`: name, 16-bit type, 16-bit class. -/
def DnsQuestion.read (b : PacketBuffer) : Except DnsError DnsQuestion × PacketBuffer :=
  bstep b.read_query_name fun name b =>
  bstep b.read_u16 fun ty b =>
  bstep b.read_u16 fun cl b =>
  (.ok ⟨name, DnsQueryType.from_u16 ty, DnsQueryClass.from_u16 cl⟩, b)

/-- `DnsQuestion::write`: name, type code, class code. -/
def DnsQuestion.write (q : DnsQuestion) (b : PacketBuffer) :
    Except DnsError Unit × PacketBuffer :=
  bstep (b.write_query_name q.name) fun _ b =>
  bstep (b.write_u16 q.query_type.to_u16) fun _ b =>
  bstep (b.write_u16 q.query_class.to_u16) fun _ b =>
  (.ok (), b)

/-- `std::net::IpAddr`: a v4 address is its `u32` value, a v6 address its
`u128` value (`Ipv4Addr::from` / `u32::from` are the identity here). -/
inductive IpAddr where
  | V4 (addr : Nat)
  | V6 (addr : Nat)
deriving DecidableEq, Repr

/-- `DnsRecord` from `src/dns/record.rs`: one variant per supported record
kind plus the `UNKNOWN` fallback carrying the raw type code and RDATA. -/
inductive DnsRecord where
  | A (domain : List Nat) (addr : Nat) (ttl : Nat)
  | NS (domain : List Nat) (host : List Nat) (ttl : Nat)
  | CNAME (domain : List Nat) (host : List Nat) (ttl : Nat)
  | SOA (domain : List Nat) (primary_ns : List Nat) (mailbox : List Nat)
      (serial : Nat) (refresh : Nat) (retry : Nat) (expire : Nat)
      (minimum_ttl : Nat) (ttl : Nat)
  | PTR (domain : List Nat) (host : List Nat) (ttl : Nat)
  | MX (domain : List Nat) (priority : Nat) (host : List Nat) (ttl : Nat)
  | TXT (domain : List Nat) (text : List Nat) (ttl : Nat)
  | AAAA (domain : List Nat) (addr : Nat) (ttl : Nat)
  | SRV (domain : List Nat) (priority : Nat) (weight : Nat) (port : Nat)
      (target : List Nat) (ttl : Nat)
  | UNKNOWN (domain : List Nat) (query_type : DnsQueryType) (data : List Nat)
      (ttl : Nat)
deriving DecidableEq, Repr

/-- `DnsRecord::read`: name, type, class (parsed but dropped), TTL, RDATA
length, then the type-directed payload decode.  TXT and UNKNOWN consume the
declared length verbatim; all other kinds have a fixed-shape payload. -/
def DnsRecord.read (b : PacketBuffer) : Except DnsError DnsRecord × PacketBuffer :=
  bstep b.read_query_name fun domain b =>
  bstep b.read_u16 fun tyCode b =>
  bstep b.read_u16 fun _query_class b =>
  bstep b.read_u32 fun ttl b =>
  bstep b.read_u16 fun length b =>
  match DnsQueryType.from_u16 tyCode with
  | .A =>
    bstep b.read_u32 fun addr b => (.ok (DnsRecord.A domain addr ttl), b)
  | .NS =>
    bstep b.read_query_name fun host b => (.ok (DnsRecord.NS domain host ttl), b)
  | .CNAME =>
    bstep b.read_query_name fun host b => (.ok (DnsRecord.CNAME domain host ttl), b)
  | .SOA =>
    bstep b.read_query_name fun primary_ns b =>
    bstep b.read_query_name fun mailbox b =>
    bstep b.read_u32 fun serial b =>
    bstep b.read_u32 fun refresh b =>
    bstep b.read_u32 fun retry b =>
    bstep b.read_u32 fun expire b =>
    bstep b.read_u32 fun minimum_ttl b =>
    (.ok (DnsRecord.SOA domain primary_ns mailbox serial refresh retry expire
      minimum_ttl ttl), b)
  | .PTR =>
    bstep b.read_query_name fun host b => (.ok (DnsRecord.PTR domain host ttl), b)
  | .MX =>
    bstep b.read_u16 fun priority b =>
    bstep b.read_query_name fun host b =>
    (.ok (DnsRecord.MX domain priority host ttl), b)
  | .TXT =>
    bstep (b.read_bytes length) fun txt_data b =>
    (.ok (DnsRecord.TXT domain (utf8Lossy txt_data) ttl), b)
  | .AAAA =>
    bstep b.read_u128 fun addr b => (.ok (DnsRecord.AAAA domain addr ttl), b)
  | .SRV =>
    bstep b.read_u16 fun priority b =>
    bstep b.read_u16 fun weight b =>
    bstep b.read_u16 fun port b =>
    bstep b.read_query_name fun target b =>
    (.ok (DnsRecord.SRV domain priority weight port target ttl), b)
  | qt =>
    bstep (b.read_bytes length) fun data b =>
    (.ok (DnsRecord.UNKNOWN domain qt data ttl), b)

/-- `DnsRecord::write`: each variant as in the source.  Note the shapes the
source actually has: NS and CNAME emit the host as a raw length-prefixed byte
string (not name-encoded), PTR likewise, SOA emits no RDATA length at all,
and MX/SRV declare a fixed RDATA length (2 resp. 6) that excludes the
name-encoded host that follows. -/
def DnsRecord.write (r : DnsRecord) (b : PacketBuffer) :
    Except DnsError Unit × PacketBuffer :=
  match r with
  | .A domain addr ttl =>
    bstep (b.write_query_name domain) fun _ b =>
    bstep (b.write_u16 DnsQueryType.A.to_u16) fun _ b =>
    bstep (b.write_u16 1) fun _ b =>
    bstep (b.write_u32 ttl) fun _ b =>
    bstep (b.write_u16 4) fun _ b =>
    bstep (b.write_u32 addr) fun _ b =>
    (.ok (), b)
  | .NS domain host ttl =>
    bstep (b.write_query_name domain) fun _ b =>
    bstep (b.write_u16 DnsQueryType.NS.to_u16) fun _ b =>
    bstep (b.write_u16 1) fun _ b =>
    bstep (b.write_u32 ttl) fun _ b =>
    bstep (b.write_u16 (host.length % 65536)) fun _ b =>
    bstep (b.write_bytes host) fun _ b =>
    (.ok (), b)
  | .CNAME domain host ttl =>
    bstep (b.write_query_name domain) fun _ b =>
    bstep (b.write_u16 DnsQueryType.CNAME.to_u16) fun _ b =>
    bstep (b.write_u16 1) fun _ b =>
    bstep (b.write_u32 ttl) fun _ b =>
    bstep (b.write_u16 (host.length % 65536)) fun _ b =>
    bstep (b.write_bytes host) fun _ b =>
    (.ok (), b)
  | .SOA domain primary_ns mailbox serial refresh retry expire minimum_ttl ttl =>
    bstep (b.write_query_name domain) fun _ b =>
    bstep (b.write_u16 DnsQueryType.SOA.to_u16) fun _ b =>
    bstep (b.write_u16 1) fun _ b =>
    bstep (b.write_u32 ttl) fun _ b =>
    bstep (b.write_query_name primary_ns) fun _ b =>
    bstep (b.write_query_name mailbox) fun _ b =>
    bstep (b.write_u32 serial) fun _ b =>
    bstep (b.write_u32 refresh) fun _ b =>
    bstep (b.write_u32 retry) fun _ b =>
    bstep (b.write_u32 expire) fun _ b =>
    bstep (b.write_u32 minimum_ttl) fun _ b =>
    (.ok (), b)
  | .PTR domain host ttl =>
    bstep (b.write_query_name domain) fun _ b =>
    bstep (b.write_u16 DnsQueryType.PTR.to_u16) fun _ b =>
    bstep (b.write_u16 1) fun _ b =>
    bstep (b.write_u32 ttl) fun _ b =>
    bstep (b.write_u16 (host.length % 65536)) fun _ b =>
    bstep (b.write_bytes host) fun _ b =>
    (.ok (), b)
  | .MX domain priority host ttl =>
    bstep (b.write_query_name domain) fun _ b =>
    bstep (b.write_u16 DnsQueryType.MX.to_u16) fun _ b =>
    bstep (b.write_u16 1) fun _ b =>
    bstep (b.write_u32 ttl) fun _ b =>
    bstep (b.write_u16 2) fun _ b =>
    bstep (b.write_u16 priority) fun _ b =>
    bstep (b.write_query_name host) fun _ b =>
    (.ok (), b)
  | .TXT domain text ttl =>
    bstep (b.write_query_name domain) fun _ b =>
    bstep (b.write_u16 DnsQueryType.TXT.to_u16) fun _ b =>
    bstep (b.write_u16 1) fun _ b =>
    bstep (b.write_u32 ttl) fun _ b =>
    bstep (b.write_u16 (text.length % 65536)) fun _ b =>
    bstep (b.write_bytes text) fun _ b =>
    (.ok (), b)
  | .AAAA domain addr ttl =>
    bstep (b.write_query_name domain) fun _ b =>
    bstep (b.write_u16 DnsQueryType.AAAA.to_u16) fun _ b =>
    bstep (b.write_u16 1) fun _ b =>
    bstep (b.write_u32 ttl) fun _ b =>
    bstep (b.write_u16 16) fun _ b =>
    bstep (b.write_u128 addr) fun _ b =>
    (.ok (), b)
  | .SRV domain priority weight port target ttl =>
    bstep (b.write_query_name domain) fun _ b =>
    bstep (b.write_u16 DnsQueryType.SRV.to_u16) fun _ b =>
    bstep (b.write_u16 1) fun _ b =>
    bstep (b.write_u32 ttl) fun _ b =>
    bstep (b.write_u16 6) fun _ b =>
    bstep (b.write_u16 priority) fun _ b =>
    bstep (b.write_u16 weight) fun _ b =>
    bstep (b.write_u16 port) fun _ b =>
    bstep (b.write_query_name target) fun _ b =>
    (.ok (), b)
  | .UNKNOWN domain query_type data ttl =>
    bstep (b.write_query_name domain) fun _ b =>
    bstep (b.write_u16 query_type.to_u16) fun _ b =>
    bstep (b.write_u16 1) fun _ b =>
    bstep (b.write_u32 ttl) fun _ b =>
    bstep (b.write_u16 (data.length % 65536)) fun _ b =>
    bstep (b.write_bytes data) fun _ b =>
    (.ok (), b)

/-- `DnsRecord::matches_query_type`. -/
def DnsRecord.matches_query_type (r : DnsRecord) (query_type : DnsQueryType) : Bool :=
  match r, query_type with
  | .A _ _ _, .A => true
  | .NS _ _ _, .NS => true
  | .CNAME _ _ _, .CNAME => true
  | .SOA _ _ _ _ _ _ _ _ _, .SOA => true
  | .PTR _ _ _, .PTR => true
  | .MX _ _ _ _, .MX => true
  | .TXT _ _ _, .TXT => true
  | .AAAA _ _ _, .AAAA => true
  | .SRV _ _ _ _ _ _, .SRV => true
  | .UNKNOWN _ record_query_type _ _, qt => record_query_type == qt
  | _, _ => false

/-- `DnsPacket` from `src/dns/packet.rs`. -/
structure DnsPacket where
  header : DnsHeader
  questions : List DnsQuestion
  answers : List DnsRecord
  authorities : List DnsRecord
  additional : List DnsRecord
deriving DecidableEq, Repr

/-- `DnsPacket::new`. -/
def DnsPacket.new : DnsPacket := ⟨DnsHeader.new, [], [], [], []⟩

/-- The `for _ in 0..count { push(read(buffer)?) }` loops of
`DnsPacket::read`: read `n` consecutive entries. -/
def readEntries {α : Type} (rd : PacketBuffer → Except DnsError α × PacketBuffer) :
    Nat → PacketBuffer → Except DnsError (List α) × PacketBuffer
  | 0, b => (.ok [], b)
  | n + 1, b =>
    dstep (rd b) fun x b =>
    dstep (readEntries rd n b) fun xs b =>
    (.ok (x :: xs), b)

/-- `DnsPacket::read`: header, then exactly `question_count` questions,
`answer_count` answers, `authority_count` authorities and
`additional_count` additional records, trusting the header counts. -/
def DnsPacket.read (b : PacketBuffer) : Except DnsError DnsPacket × PacketBuffer :=
  dstep (DnsHeader.read b) fun header b =>
  dstep (readEntries DnsQuestion.read header.question_count b) fun questions b =>
  dstep (readEntries DnsRecord.read header.answer_count b) fun answers b =>
  dstep (readEntries DnsRecord.read header.authority_count b) fun authorities b =>
  dstep (readEntries DnsRecord.read header.additional_count b) fun additional b =>
  (.ok ⟨header, questions, answers, authorities, additional⟩, b)

/-- The `iter().try_for_each(|x| x.write(buffer))` loops of
`DnsPacket::write`. -/
def writeEntries {α : Type} (wr : α → PacketBuffer → Except DnsError Unit × PacketBuffer) :
    List α → PacketBuffer → Except DnsError Unit × PacketBuffer
  | [], b => (.ok (), b)
  | x :: xs, b =>
    dstep (wr x b) fun _ b => writeEntries wr xs b

/-- `DnsPacket::write`: header (with whatever counts it stores), then the
four sequences in order. -/
def DnsPacket.write (p : DnsPacket) (b : PacketBuffer) :
    Except DnsError Unit × PacketBuffer :=
  dstep (p.header.write b) fun _ b =>
  dstep (writeEntries DnsQuestion.write p.questions b) fun _ b =>
  dstep (writeEntries DnsRecord.write p.answers b) fun _ b =>
  dstep (writeEntries DnsRecord.write p.authorities b) fun _ b =>
  dstep (writeEntries DnsRecord.write p.additional b) fun _ b =>
  (.ok (), b)

/-- `DnsPacket::get_nameservers`: the (delegated-domain, host) pairs of the
authority-section NS records whose domain is a raw byte suffix of the query
name (`query_name.ends_with(domain)`), in section order. -/
def DnsPacket.get_nameservers (p : DnsPacket) (query_name : List Nat) :
    List (List Nat × List Nat) :=
  p.authorities.filterMap fun record =>
    match record with
    | .NS domain host _ =>
      if domain.isSuffixOf query_name then some (domain, host) else none
    | _ => none

/-- `DnsPacket::get_resolved_nameserver`: the first additional-section A or
AAAA glue record owned by one of the delegated nameserver hosts and matching
the requested query type. -/
def DnsPacket.get_resolved_nameserver (p : DnsPacket) (query_name : List Nat)
    (query_type : DnsQueryType) : Option IpAddr :=
  ((p.get_nameservers query_name).flatMap fun pair =>
    p.additional.filterMap fun record =>
      match record with
      | .A domain addr ttl =>
        if domain == pair.2 && (DnsRecord.A domain addr ttl).matches_query_type query_type
        then some (.V4 addr) else none
      | .AAAA domain addr ttl =>
        if domain == pair.2 && (DnsRecord.AAAA domain addr ttl).matches_query_type query_type
        then some (.V6 addr) else none
      | _ => none).head?

/-- `DnsPacket::get_uresolved_nameserver` (name as in the source): the host
of the first matching authority NS record. -/
def DnsPacket.get_uresolved_nameserver (p : DnsPacket) (query_name : List Nat) :
    Option (List Nat) :=
  ((p.get_nameservers query_name).map fun pair => pair.2).head?

/-- `DnsPacket::get_record`: the first answer-section record matching the
query type, projected to an address when it is an A or AAAA record. -/
def DnsPacket.get_record (p : DnsPacket) (query_type : DnsQueryType) : Option IpAddr :=
  (p.answers.find? fun record => record.matches_query_type query_type).bind
    fun record =>
      match record with
      | .A _ addr _ => some (.V4 addr)
      | .AAAA _ addr _ => some (.V6 addr)
      | _ => none

/-- The root-server hint hard-coded in `recursive_lookup`
(`Ipv4Addr::new(198, 41, 0, 4)`). -/
def rootNameserver : IpAddr := .V4 3324575748

/-- The delegation-walking loop of `recursive_lookup` from
`src/dns/resolve.rs`.  The one-shot `lookup` exchange (UDP socket I/O) is
abstracted as the `exchange` parameter: given the current nameserver
address, the query name and the query type, it yields the decoded response
packet or a transport/decode failure.  Both the `loop`/`continue` iteration
and the nested resolution of an unresolved NS hostname consume one unit of
`fuel`; `none` models non-termination (the source has no iteration or depth
bound).  The nested call restarts from the root hint, as the source's
top-level recursive call does. -/
def recursive_lookup_from
    (exchange : IpAddr → List Nat → DnsQueryType → Except DnsError DnsPacket) :
    Nat → IpAddr → List Nat → DnsQueryType →
    Option (Except DnsError DnsPacket)
  | 0, _, _, _ => none
  | fuel + 1, nameserver, query_name, query_type =>
    match exchange nameserver query_name query_type with
    | .error e => some (.error e)
    | .ok response =>
      if (decide (response.answers ≠ []) &&
            (response.header.response_code == DnsResponseCode.NoError)) ||
          (response.header.response_code == DnsResponseCode.NxDomain) then
        some (.ok response)
      else
        match response.get_resolved_nameserver query_name query_type with
        | some new_nameserver =>
          recursive_lookup_from exchange fuel new_nameserver query_name query_type
        | none =>
          match response.get_uresolved_nameserver query_name with
          | none => some (.ok response)
          | some new_ns_host =>
            match recursive_lookup_from exchange fuel rootNameserver new_ns_host .A with
            | none => none
            | some (.error e) => some (.error e)
            | some (.ok recursive_response) =>
              match recursive_response.get_record .A with
              | some ns => recursive_lookup_from exchange fuel ns query_name query_type
              | none => some (.ok response)

/-- `recursive_lookup`: start the delegation walk at the root-server hint. -/
def recursive_lookup
    (exchange : IpAddr → List Nat → DnsQueryType → Except DnsError DnsPacket)
    (fuel : Nat) (query_name : List Nat) (query_type : DnsQueryType) :
    Option (Except DnsError DnsPacket) :=
  recursive_lookup_from exchange fuel rootNameserver query_name query_type

/-- Write a packet into a fresh buffer and read it back from position 0:
the round-trip of §8 of the specification. -/
def roundtripPacket (p : DnsPacket) : Except DnsError DnsPacket :=
  match DnsPacket.write p PacketBuffer.new with
  | (.error e, _) => .error e
  | (.ok _, b) => (DnsPacket.read { b with pos := 0 }).1

/-- Number of bytes of the uncompressed wire encoding of a label sequence
(one length octet per label plus the terminator). -/
def encLen : List (List Nat) → Nat
  | [] => 1
  | l :: ls => 1 + l.length + encLen ls

/-- `storesLabels buf pos ls`: the buffer bytes starting at `pos` hold the
uncompressed, zero-terminated wire encoding of the label sequence `ls`, each
label nonempty, at most 63 bytes and valid UTF-8. -/
def storesLabels (buf : List Nat) : Nat → List (List Nat) → Prop
  | pos, [] => pos < buf.length ∧ buf.getD pos 0 = 0
  | pos, l :: ls =>
    1 ≤ l.length ∧ l.length ≤ 63 ∧ pos < buf.length ∧
    buf.getD pos 0 = l.length ∧ pos + 1 + l.length ≤ buf.length ∧
    (buf.drop (pos + 1)).take l.length = l ∧ validUtf8 l = true ∧
    storesLabels buf (pos + 1 + l.length) ls

/-- `storesLabels` is decidable, so concrete instances are checked by
evaluation. -/
instance storesLabelsDec (buf : List Nat) :
    ∀ (pos : Nat) (ls : List (List Nat)), Decidable (storesLabels buf pos ls)
  | _, [] => by unfold storesLabels; infer_instance
  | pos, l :: ls => by
    unfold storesLabels
    have := storesLabelsDec buf (pos + 1 + l.length) ls
    infer_instance

/-- `pointerAt buf a t`: bytes `a` and `a+1` of the buffer hold a DNS
compression pointer (top two bits `11`) with 14-bit target offset `t`. -/
def pointerAt (buf : List Nat) (a t : Nat) : Prop :=
  a + 1 < buf.length ∧ t < 16384 ∧
  buf.getD a 0 = (0xC0 ||| (t >>> 8)) ∧ buf.getD (a + 1) 0 = (t &&& 0xFF)

instance pointerAtDec (buf : List Nat) (a t : Nat) : Decidable (pointerAt buf a t) := by
  unfold pointerAt
  infer_instance

/-- The nameservers-for query helper as worded in the specification: keep
exactly the authority-section entries that are NS records whose delegated
domain is a raw suffix of the query name, in section order, and project each
to its (delegated-domain, host) pair. -/
def nameserversForSpec (p : DnsPacket) (query_name : List Nat) :
    List (List Nat × List Nat) :=
  (p.authorities.filter fun record =>
    match record with
    | .NS domain _ _ => domain.isSuffixOf query_name
    | _ => false).map fun record =>
      match record with
      | .NS domain host _ => (domain, host)
      | _ => ([], [])

-- Equality of `Except` results is decidable, so concrete codec runs can be
-- checked by evaluation.
deriving instance DecidableEq for Except

/-- Total wire size of a label sequence without the terminator (one length
octet plus the label bytes, per label). -/
def labelsLen : List (List Nat) → Nat
  | [] => 0
  | l :: ls => 1 + l.length + labelsLen ls

/-- A packet with one NS answer whose host is `b.c`: input of the round-trip
check for the NS record layout. -/
def nsRoundtripPacket : DnsPacket :=
  { DnsPacket.new with
    header := { DnsHeader.new with answer_count := 1 }
    answers := [DnsRecord.NS [97] [98, 46, 99] 0] }

/-- A header whose question count is `c` while the packet carries no
questions at all. -/
def mismatchedHeader (c : Nat) : DnsHeader :=
  ⟨0, false, 0, false, false, false, false, 0, .NoError, c, 0, 0, 0⟩

/-- A packet whose header question count disagrees with its (empty) question
list whenever `c ≠ 0`. -/
def mismatchedPacket (c : Nat) : DnsPacket :=
  ⟨mismatchedHeader c, [], [], [], []⟩

/-- The name `aa.bbb…b` (64 b's): a short label followed by an oversized
one; written at cursor position 510, the buffer is exhausted while emitting
the first label, before the oversized label is reached. -/
def longLabelName : List Nat :=
  [97, 97, 46] ++ List.replicate 64 98

/-- A fresh buffer whose cursor has already advanced to position 510, as it
would be near the end of a full message. -/
def nearFullBuffer : PacketBuffer := ⟨List.replicate 512 0, 510⟩

/-- Store a compression pointer with target `t` at offsets `a`, `a+1`. -/
def putPointer (buf : List Nat) (a t : Nat) : List Nat :=
  (buf.set a (0xC0 ||| (t >>> 8))).set (a + 1) (t &&& 0xFF)

/-- A 512-byte buffer with a chain of six pointers
12 → 20 → 28 → 36 → 44 → 52 → 60 and the name `ab` stored at offset 60. -/
def chainSixBuf : List Nat :=
  let b1 := putPointer (List.replicate 512 0) 12 20
  let b2 := putPointer b1 20 28
  let b3 := putPointer b2 28 36
  let b4 := putPointer b3 36 44
  let b5 := putPointer b4 44 52
  let b6 := putPointer b5 52 60
  ((b6.set 60 2).set 61 97).set 62 98

/-- A 512-byte buffer with a chain of five pointers
12 → 20 → 28 → 36 → 44 → 60 and the name `ab` stored at offset 60. -/
def chainFiveBuf : List Nat :=
  let b1 := putPointer (List.replicate 512 0) 12 20
  let b2 := putPointer b1 20 28
  let b3 := putPointer b2 28 36
  let b4 := putPointer b3 36 44
  let b5 := putPointer b4 44 60
  ((b5.set 60 2).set 61 97).set 62 98

/-- A 512-byte buffer whose last three bytes hold the name `a` (length 1,
byte `a`, terminating zero at offset 511). -/
def nameAtEndBuf : List Nat :=
  ((List.replicate 512 0).set 509 1).set 510 97

/-- A response with code NxDomain, no answers, and a nonempty authority
section. -/
def nxDomainResponse : DnsPacket :=
  { DnsPacket.new with
    header := { DnsHeader.new with response_code := .NxDomain }
    authorities := [DnsRecord.NS [97] [98] 0] }

/-- A non-terminal referral response delegating `a` to the host `b`, with a
glue A record for `b` in the additional section. -/
def glueResponse : DnsPacket :=
  { DnsPacket.new with
    authorities := [DnsRecord.NS [97] [98] 0]
    additional := [DnsRecord.A [98] 5 0] }

/-! ### Arithmetic and bit-level helper lemmas -/

theorem orAdd (k m b : Nat) (hb : b < 2 ^ k) : (2 ^ k * m) ||| b = 2 ^ k * m + b := by
  apply Nat.eq_of_testBit_eq
  intro i
  rw [Nat.testBit_or, Nat.testBit_mul_pow_two_add m hb i]
  have hshift : 2 ^ k * m = m <<< k := by rw [Nat.shiftLeft_eq]; ring
  by_cases hik : i < k
  · have h1 : (2 ^ k * m).testBit i = false := by
      rw [hshift, Nat.testBit_shiftLeft]
      have hn : ¬ (i ≥ k) := by omega
      simp [hn]
    simp [h1, hik]
  · have h2 : b.testBit i = false :=
      Nat.testBit_lt_two_pow
        (lt_of_lt_of_le hb (Nat.pow_le_pow_right (by norm_num) (Nat.not_lt.mp hik)))
    rw [if_neg hik]
    rw [hshift, Nat.testBit_shiftLeft, h2]
    simp [Nat.not_lt.mp hik]

theorem ifOrToNat (b : Bool) (acc v : Nat) :
    (if b then acc ||| v else acc) = acc ||| b.toNat * v := by
  cases b <;> simp

theorem bitNe (f k : Nat) : ((f &&& 2 ^ k) != 0) = f.testBit k := by
  rw [Nat.and_two_pow]
  cases h : f.testBit k <;> simp [h]

theorem toNat_testBit (f k : Nat) : (f.testBit k).toNat = f / 2 ^ k % 2 := by
  rw [Nat.testBit_to_div_mod]
  rcases Nat.mod_two_eq_zero_or_one (f / 2 ^ k) with h | h <;> simp [h]

theorem maskShiftRight (f a w : Nat) :
    (f &&& ((2 ^ w - 1) <<< a)) >>> a = (f >>> a) % 2 ^ w := by
  apply Nat.eq_of_testBit_eq
  intro i
  rw [Nat.testBit_shiftRight, Nat.testBit_and, Nat.testBit_shiftLeft,
    Nat.testBit_mod_two_pow, Nat.testBit_shiftRight, Nat.testBit_two_pow_sub_one]
  have h1 : a + i - a = i := by omega
  have h2 : a + i ≥ a := by omega
  rw [h1]
  simp [h2]
  cases f.testBit (a + i) <;> simp

theorem orSum (q op a t r8 r7 res rc : Nat) (hq : q < 2) (hop : op < 16)
    (ha : a < 2) (ht : t < 2) (h8 : r8 < 2) (h7 : r7 < 2) (hres : res < 8)
    (hrc : rc < 16) :
    (((((((q * 32768 ||| op * 2048) ||| a * 1024) ||| t * 512) |||
       r8 * 256) ||| r7 * 128) ||| res * 16) ||| rc) =
      q * 32768 + op * 2048 + a * 1024 + t * 512 + r8 * 256 + r7 * 128 +
        res * 16 + rc := by
  rw [show q * 32768 = 2 ^ 15 * q by ring, orAdd 15 q _ (by omega)]
  rw [show 2 ^ 15 * q + op * 2048 = 2 ^ 11 * (q * 16 + op) by ring,
    orAdd 11 _ _ (by omega)]
  rw [show 2 ^ 11 * (q * 16 + op) + a * 1024 = 2 ^ 10 * ((q * 16 + op) * 2 + a) by ring,
    orAdd 10 _ _ (by omega)]
  rw [show 2 ^ 10 * ((q * 16 + op) * 2 + a) + t * 512 =
      2 ^ 9 * (((q * 16 + op) * 2 + a) * 2 + t) by ring, orAdd 9 _ _ (by omega)]
  rw [show 2 ^ 9 * (((q * 16 + op) * 2 + a) * 2 + t) + r8 * 256 =
      2 ^ 8 * ((((q * 16 + op) * 2 + a) * 2 + t) * 2 + r8) by ring,
    orAdd 8 _ _ (by omega)]
  rw [show 2 ^ 8 * ((((q * 16 + op) * 2 + a) * 2 + t) * 2 + r8) + r7 * 128 =
      2 ^ 7 * (((((q * 16 + op) * 2 + a) * 2 + t) * 2 + r8) * 2 + r7) by ring,
    orAdd 7 _ _ (by omega)]
  rw [show 2 ^ 7 * (((((q * 16 + op) * 2 + a) * 2 + t) * 2 + r8) * 2 + r7) + res * 16 =
      2 ^ 4 * ((((((q * 16 + op) * 2 + a) * 2 + t) * 2 + r8) * 2 + r7) * 8 + res) by ring,
    orAdd 4 _ _ (by omega)]

theorem from_u8_lt_six (v : Nat) (hv : v < 6) :
    ∃ rc, DnsResponseCode.from_u8 v = some rc ∧ rc.toNat = v := by
  interval_cases v <;> exact ⟨_, rfl, rfl⟩

theorem small_not_ptr : ∀ n, n ≤ 63 → ((n &&& 192) == 192) = false := by decide

theorem and192 : ∀ x, x < 64 → (((192 + x) &&& 192) == 192) = true := by decide

theorem xor192 : ∀ x, x < 64 → (192 + x) ^^^ 192 = x := by decide

theorem or192 (x : Nat) (hx : x < 64) : 192 ||| x = 192 + x := by
  have h := orAdd 6 3 x (by omega)
  norm_num at h
  exact h

theorem ptrDecode (t : Nat) (ht : t < 16384) :
    ((((192 + (t >>> 8)) ^^^ 192) <<< 8) ||| (t &&& 255)) = t := by
  have hx : t >>> 8 < 64 := by
    rw [Nat.shiftRight_eq_div_pow]
    norm_num
    omega
  rw [xor192 _ hx, Nat.shiftLeft_eq, Nat.shiftRight_eq_div_pow]
  have h255 : t &&& 255 = t % 256 := by
    have h1 := Nat.and_pow_two_sub_one_eq_mod t 8
    norm_num at h1
    exact h1
  rw [h255]
  norm_num
  have h := orAdd 8 (t / 256) (t % 256) (by omega)
  norm_num at h
  rw [mul_comm] at h
  rw [h]
  omega

/-! ### Lemmas about the name-decompression loop -/

theorem storesLabels_le (buf : List Nat) :
    ∀ (ls : List (List Nat)) (pos : Nat), storesLabels buf pos ls →
      pos + encLen ls ≤ buf.length
  | [], pos, h => by
    obtain ⟨h1, _⟩ := h
    simp [encLen]
    omega
  | l :: ls, pos, h => by
    obtain ⟨_, _, _, _, hb, _, _, hrest⟩ := h
    have := storesLabels_le buf ls (pos + 1 + l.length) hrest
    simp [encLen]
    omega

theorem length_lt_encLen : ∀ ls : List (List Nat), ls.length < encLen ls
  | [] => by simp [encLen]
  | l :: ls => by
    have := length_lt_encLen ls
    simp [encLen]
    omega

theorem read_loop_labels (buf : List Nat) :
    ∀ (ls : List (List Nat)) (pos : Nat) (res : List (List Nat)) (rp : Nat)
      (jumped : Bool) (jumps fuel : Nat), jumps ≤ 5 →
      storesLabels buf pos ls → ls.length < fuel →
      read_name_loop buf fuel rp pos res jumped jumps =
        some (.ok (res ++ ls, pos + encLen ls, jumped), rp)
  | [], pos, res, rp, jumped, jumps, fuel + 1, hj, hs, hf => by
    obtain ⟨hpos, hzero⟩ := hs
    have hnj : ¬ (jumps > 5) := by omega
    have hget : bufGet buf pos = .ok 0 := by
      unfold bufGet
      rw [if_neg (by omega), hzero]
    simp only [read_name_loop, if_neg hnj, hget]
    simp [encLen]
  | l :: ls, pos, res, rp, jumped, jumps, fuel + 1, hj, hs, hf => by
    obtain ⟨h1, h63, hpos, hgetd, hbound, htake, hvalid, hrest⟩ := hs
    have hnj : ¬ (jumps > 5) := by omega
    have hget : bufGet buf pos = .ok l.length := by
      unfold bufGet
      rw [if_neg (by omega), hgetd]
    have hbytes : bufGetBytes buf (pos + 1) l.length = .ok l := by
      unfold bufGetBytes
      rw [if_neg (by omega), htake]
    have hne0 : (l.length == 0) = false := by
      rw [beq_eq_false_iff_ne]
      omega
    simp only [read_name_loop, if_neg hnj, hget, small_not_ptr l.length h63,
      Bool.false_eq_true, if_false, hne0, hbytes, hvalid, if_true]
    rw [read_loop_labels buf ls (pos + 1 + l.length) (res ++ [l]) rp jumped jumps fuel hj
      hrest (by simp at hf ⊢; omega)]
    simp [encLen]
    ring

theorem read_loop_jump_limit (buf : List Nat) (fuel rp pos : Nat)
    (res : List (List Nat)) (jumped : Bool) (jumps : Nat) (h : jumps > 5) :
    read_name_loop buf (fuel + 1) rp pos res jumped jumps =
      some (.error .JumpLimitExceeded, rp) := by
  simp [read_name_loop, h]

theorem read_loop_ptr_step (buf : List Nat) (a t : Nat) (h : pointerAt buf a t)
    (fuel rp : Nat) (res : List (List Nat)) (jumps : Nat) (hj : jumps ≤ 5) :
    read_name_loop buf (fuel + 1) rp a res true jumps =
      read_name_loop buf fuel rp t res true (jumps + 1) := by
  obtain ⟨hlen, ht, hhi, hlo⟩ := h
  have hx : t >>> 8 < 64 := by
    rw [Nat.shiftRight_eq_div_pow]
    norm_num
    omega
  have hhi' : buf.getD a 0 = 192 + (t >>> 8) := by rw [hhi]; exact or192 _ hx
  have hget : bufGet buf a = .ok (192 + (t >>> 8)) := by
    unfold bufGet
    rw [if_neg (by omega), hhi']
  have hget2 : bufGet buf (a + 1) = .ok (t &&& 255) := by
    unfold bufGet
    rw [if_neg (by omega), hlo]
  have hnj : ¬ (jumps > 5) := by omega
  simp only [read_name_loop, if_neg hnj, hget, and192 _ hx, hget2, Bool.not_true,
    Bool.false_and, Bool.false_eq_true, if_false, if_true, ptrDecode t ht]

theorem read_loop_first_jump (buf : List Nat) (a t : Nat) (h : pointerAt buf a t)
    (hb : a + 2 < buf.length) (fuel rp : Nat) (res : List (List Nat))
    (jumps : Nat) (hj : jumps ≤ 5) :
    read_name_loop buf (fuel + 1) rp a res false jumps =
      read_name_loop buf fuel (a + 2) t res true (jumps + 1) := by
  obtain ⟨hlen, ht, hhi, hlo⟩ := h
  have hx : t >>> 8 < 64 := by
    rw [Nat.shiftRight_eq_div_pow]
    norm_num
    omega
  have hhi' : buf.getD a 0 = 192 + (t >>> 8) := by rw [hhi]; exact or192 _ hx
  have hget : bufGet buf a = .ok (192 + (t >>> 8)) := by
    unfold bufGet
    rw [if_neg (by omega), hhi']
  have hget2 : bufGet buf (a + 1) = .ok (t &&& 255) := by
    unfold bufGet
    rw [if_neg (by omega), hlo]
  have hnj : ¬ (jumps > 5) := by omega
  have hinb : (decide (a + 2 ≥ buf.length)) = false := by
    rw [decide_eq_false_iff_not]
    omega
  simp only [read_name_loop, if_neg hnj, hget, and192 _ hx, hget2, Bool.not_false,
    Bool.true_and, hinb, Bool.false_eq_true, if_false, if_true, ptrDecode t ht]

/-! ### Lemmas about the name writer -/

theorem write_bytes_ok (bytes : List Nat) :
    ∀ b : PacketBuffer, b.pos + bytes.length ≤ b.buffer.length →
      (b.write_bytes bytes).1 = .ok () ∧
      (b.write_bytes bytes).2.pos = b.pos + bytes.length ∧
      (b.write_bytes bytes).2.buffer.length = b.buffer.length
  | b, h => by
    match bytes with
    | [] => simp [PacketBuffer.write_bytes]
    | x :: xs =>
      have hw : b.write x = (.ok (), ⟨b.buffer.set b.pos (x % 256), b.pos + 1⟩) := by
        unfold PacketBuffer.write
        rw [if_neg (by simp at h; omega)]
      have hrec := write_bytes_ok xs ⟨b.buffer.set b.pos (x % 256), b.pos + 1⟩
        (by simp [List.length_set] at h ⊢; omega)
      simp only [PacketBuffer.write_bytes, hw] at hrec ⊢
      simp [List.length_set] at hrec ⊢
      exact ⟨hrec.1, by omega, by omega⟩

theorem writeLabels_oversized (origPos : Nat) :
    ∀ (ls1 : List (List Nat)) (l : List Nat) (ls2 : List (List Nat))
      (b : PacketBuffer), (∀ l' ∈ ls1, l'.length ≤ 63) → l.length > 63 →
      b.pos + labelsLen ls1 ≤ b.buffer.length →
      (writeLabelsAux origPos (ls1 ++ l :: ls2) b).1 = .error .InvalidLabelLength ∧
      (writeLabelsAux origPos (ls1 ++ l :: ls2) b).2.pos = origPos
  | [], l, ls2, b, hshort, hlong, hfit => by
    simp [List.nil_append, writeLabelsAux, if_pos hlong]
  | l' :: ls1, l, ls2, b, hshort, hlong, hfit => by
    have h63 : l'.length ≤ 63 := hshort l' (by simp)
    have hnot : ¬ (l'.length > 63) := by omega
    simp only [labelsLen] at hfit
    have hw : b.write l'.length = (.ok (), ⟨b.buffer.set b.pos (l'.length % 256), b.pos + 1⟩) := by
      unfold PacketBuffer.write
      rw [if_neg (by omega)]
    have hwb := write_bytes_ok l' ⟨b.buffer.set b.pos (l'.length % 256), b.pos + 1⟩
      (by simp [List.length_set]; omega)
    set b2 := (PacketBuffer.write_bytes ⟨b.buffer.set b.pos (l'.length % 256), b.pos + 1⟩ l').2 with hb2
    have hrec := writeLabels_oversized origPos ls1 l ls2 b2
      (fun x hx => hshort x (by simp [hx])) hlong
      (by
        have h1 := hwb.2.1
        have h2 := hwb.2.2
        simp [List.length_set] at h1 h2 ⊢
        omega)
    simp only [List.cons_append, writeLabelsAux, if_neg hnot, hw]
    have hok : PacketBuffer.write_bytes ⟨b.buffer.set b.pos (l'.length % 256), b.pos + 1⟩ l' =
        (.ok (), b2) := by
      have := hwb.1
      rw [hb2]
      cases hx : PacketBuffer.write_bytes ⟨b.buffer.set b.pos (l'.length % 256), b.pos + 1⟩ l' with
      | mk fst snd =>
        rw [hx] at this
        simp at this
        simp [this]
    rw [hok]
    exact hrec

/-! ### Claim theorems -/

set_option maxRecDepth 1000000 in
/-- Claim C1: the write/read round-trip is claimed to reproduce a
structurally equal message for every supported record kind.  The code
violates this: `DnsRecord::write` emits an NS host as a raw length-prefixed
byte string while `DnsRecord::read` decodes the same bytes with the name
decoder, so a packet holding one NS answer with host `b.c` reads back with a
different host (the first data byte is consumed as a label length).  This
theorem evaluates the codec at that failing input. -/
theorem c1_ns_record_roundtrip_mismatch :
    roundtripPacket nsRoundtripPacket ≠ .ok nsRoundtripPacket := by decide

/-- Claim C2, counterexample: at the raw flags word 6 (RCODE = 6) the
unpack-then-repack pipeline does not return 6 — `set_flags` hits the
`from_u8` panic, modelled as `none`, so no value is produced at all. -/
theorem c2_counterexample :
    (DnsHeader.set_flags DnsHeader.new 6).map DnsHeader.get_flags ≠ some 6 := by
  decide

set_option maxHeartbeats 2000000 in
/-- Claim C2 (amended): for every 16-bit flags word whose low nibble (the
response code) is in 0..5, `set_flags` followed by `get_flags` reproduces
exactly the same word; words with RCODE 6..15 abort in `from_u8` instead
(see C7), so the bit-exact inverse holds on the non-panicking domain. -/
theorem c2_flags_roundtrip (h : DnsHeader) (f : Nat) (hf : f < 65536)
    (hrcv : f % 16 < 6) :
    (h.set_flags f).map DnsHeader.get_flags = some f := by
  obtain ⟨rc, hrc_eq, hrc_toNat⟩ := from_u8_lt_six (f % 16) hrcv
  have hand15 : f &&& 0x000F = f % 16 := by
    have h1 := Nat.and_pow_two_sub_one_eq_mod f 4
    norm_num at h1
    exact h1
  have hmod : (f % 16) % 256 = f % 16 := Nat.mod_eq_of_lt (by omega)
  have hop : (f &&& 0x7800) >>> 11 = (f >>> 11) % 16 := by
    have h1 := maskShiftRight f 11 4
    have h2 : ((2 : Nat) ^ 4 - 1) <<< 11 = 0x7800 := by decide
    rw [h2] at h1
    norm_num at h1 ⊢
    exact h1
  have hres : (f &&& 0x0070) >>> 4 = (f >>> 4) % 8 := by
    have h1 := maskShiftRight f 4 3
    have h2 : ((2 : Nat) ^ 3 - 1) <<< 4 = 0x0070 := by decide
    rw [h2] at h1
    norm_num at h1 ⊢
    exact h1
  have hople : (f >>> 11) % 16 % 256 = (f >>> 11) % 16 := Nat.mod_eq_of_lt (by omega)
  have hresle : (f >>> 4) % 8 % 256 = (f >>> 4) % 8 := Nat.mod_eq_of_lt (by omega)
  have b15 := bitNe f 15
  have b10 := bitNe f 10
  have b9 := bitNe f 9
  have b8 := bitNe f 8
  have b7 := bitNe f 7
  norm_num at b15 b10 b9 b8 b7
  cases h
  simp only [DnsHeader.set_flags, hand15, hmod, hrc_eq, hop, hres, hople, hresle,
    b15, b10, b9, b8, b7, Option.map_some']
  simp only [DnsHeader.get_flags]
  rw [ifOrToNat, ifOrToNat, ifOrToNat, ifOrToNat, ifOrToNat]
  rw [hrc_toNat]
  simp only [Nat.shiftLeft_eq, Nat.shiftRight_eq_div_pow, toNat_testBit]
  norm_num
  have hdrop1 : f / 2048 % 16 * 2048 % 65536 = f / 2048 % 16 * 2048 :=
    Nat.mod_eq_of_lt (by omega)
  have hdrop2 : f / 16 % 8 * 16 % 65536 = f / 16 % 8 * 16 :=
    Nat.mod_eq_of_lt (by omega)
  rw [hdrop1, hdrop2,
    orSum (f / 32768 % 2) (f / 2048 % 16) (f / 1024 % 2) (f / 512 % 2)
      (f / 256 % 2) (f / 128 % 2) (f / 16 % 8) (f % 16) (by omega) (by omega)
      (by omega) (by omega) (by omega) (by omega) (by omega) (by omega)]
  omega

/-- Claim C2, witness: the round-trip theorem applied at the concrete flags
word 0x8123. -/
theorem c2_flags_roundtrip_witness :
    (DnsHeader.set_flags DnsHeader.new 0x8123).map DnsHeader.get_flags =
      some 0x8123 :=
  c2_flags_roundtrip DnsHeader.new 0x8123 (by decide) (by decide)

/-- Claim C3: a response whose response code is NxDomain and whose answer
section is empty is returned by the delegation loop immediately after the
exchange that produced it — with any remaining fuel and regardless of the
authority section, no further step (no nameserver change, no nested lookup)
is taken. -/
theorem c3_nxdomain_terminal
    (exchange : IpAddr → List Nat → DnsQueryType → Except DnsError DnsPacket)
    (fuel : Nat) (nameserver : IpAddr) (query_name : List Nat)
    (query_type : DnsQueryType) (response : DnsPacket)
    (hex : exchange nameserver query_name query_type = .ok response)
    (hrc : response.header.response_code = .NxDomain)
    (hans : response.answers = []) :
    recursive_lookup_from exchange (fuel + 1) nameserver query_name query_type =
      some (.ok response) := by
  simp [recursive_lookup_from, hex, hrc]

/-- Claim C3, witness: a stub exchange that always answers NxDomain with a
nonempty authority section; one unit of fuel suffices. -/
theorem c3_nxdomain_terminal_witness :
    recursive_lookup_from (fun _ _ _ => .ok nxDomainResponse) 1 rootNameserver
      [97] .A = some (.ok nxDomainResponse) :=
  c3_nxdomain_terminal (fun _ _ _ => .ok nxDomainResponse) 0 rootNameserver
    [97] .A nxDomainResponse rfl (by decide) (by decide)

/-- Claim C4: on a non-terminal response for which
`get_resolved_nameserver` yields a glue address, the delegation loop
continues directly with that address as the current server — the iteration
is exactly a tail call with the new server, so no nested recursive lookup of
an NS hostname happens in it; the unresolved-nameserver path is reachable
only when no glue address is found. -/
theorem c4_glue_preferred
    (exchange : IpAddr → List Nat → DnsQueryType → Except DnsError DnsPacket)
    (fuel : Nat) (nameserver : IpAddr) (query_name : List Nat)
    (query_type : DnsQueryType) (response : DnsPacket) (addr : IpAddr)
    (hex : exchange nameserver query_name query_type = .ok response)
    (hnt1 : response.answers = [] ∨ response.header.response_code ≠ .NoError)
    (hnt2 : response.header.response_code ≠ .NxDomain)
    (hglue : response.get_resolved_nameserver query_name query_type = some addr) :
    recursive_lookup_from exchange (fuel + 1) nameserver query_name query_type =
      recursive_lookup_from exchange fuel addr query_name query_type := by
  rcases hnt1 with hnt1 | hnt1 <;>
    simp [recursive_lookup_from, hex, hglue, hnt1, hnt2]

/-- Claim C4, witness: a referral for `a` delegating to host `b` with glue
address 0.0.0.5; the loop proceeds to 0.0.0.5 with no nested lookup. -/
theorem c4_glue_preferred_witness :
    recursive_lookup_from (fun _ _ _ => .ok glueResponse) 1 rootNameserver
      [97] .A =
      recursive_lookup_from (fun _ _ _ => .ok glueResponse) 0 (.V4 5) [97] .A :=
  c4_glue_preferred (fun _ _ _ => .ok glueResponse) 0 rootNameserver [97] .A
    glueResponse (.V4 5) rfl (Or.inl (by decide)) (by decide) (by decide)

/-- Claim C5: a chain of six nested compression pointers fails with the
jump-limit error (the sixth jump raises the count past the bound of five),
while a chain of exactly five pointers leading to a well-formed, in-bounds,
uncompressed name decodes successfully to that name. -/
theorem c5_jump_limit :
    (∀ (buf : List Nat) (p0 p1 p2 p3 p4 p5 p6 : Nat),
        buf.length = 512 → p0 + 2 < 512 →
        pointerAt buf p0 p1 → pointerAt buf p1 p2 → pointerAt buf p2 p3 →
        pointerAt buf p3 p4 → pointerAt buf p4 p5 → pointerAt buf p5 p6 →
        (PacketBuffer.read_query_name ⟨buf, p0⟩).1 = .error .JumpLimitExceeded) ∧
    (∀ (buf : List Nat) (p0 p1 p2 p3 p4 p5 : Nat) (ls : List (List Nat)),
        buf.length = 512 → p0 + 2 < 512 →
        pointerAt buf p0 p1 → pointerAt buf p1 p2 → pointerAt buf p2 p3 →
        pointerAt buf p3 p4 → pointerAt buf p4 p5 → storesLabels buf p5 ls →
        (PacketBuffer.read_query_name ⟨buf, p0⟩).1 =
          .ok (List.intercalate [46] ls)) := by
  constructor
  · intro buf p0 p1 p2 p3 p4 p5 p6 hlen hp0 h01 h12 h23 h34 h45 h56
    simp only [PacketBuffer.read_query_name, hlen]
    norm_num
    rw [show (3592 : Nat) = 3591 + 1 from rfl,
      read_loop_first_jump buf p0 p1 h01 (by omega) 3591 p0 [] 0 (by omega)]
    rw [show (3591 : Nat) = 3590 + 1 from rfl,
      read_loop_ptr_step buf p1 p2 h12 3590 (p0 + 2) [] 1 (by omega)]
    rw [show (3590 : Nat) = 3589 + 1 from rfl,
      read_loop_ptr_step buf p2 p3 h23 3589 (p0 + 2) [] 2 (by omega)]
    rw [show (3589 : Nat) = 3588 + 1 from rfl,
      read_loop_ptr_step buf p3 p4 h34 3588 (p0 + 2) [] 3 (by omega)]
    rw [show (3588 : Nat) = 3587 + 1 from rfl,
      read_loop_ptr_step buf p4 p5 h45 3587 (p0 + 2) [] 4 (by omega)]
    rw [show (3587 : Nat) = 3586 + 1 from rfl,
      read_loop_ptr_step buf p5 p6 h56 3586 (p0 + 2) [] 5 (by omega)]
    rw [show (3586 : Nat) = 3585 + 1 from rfl,
      read_loop_jump_limit buf 3585 (p0 + 2) p6 [] true 6 (by omega)]
  · intro buf p0 p1 p2 p3 p4 p5 ls hlen hp0 h01 h12 h23 h34 h45 hs
    have hle := storesLabels_le buf ls p5 hs
    have hlt := length_lt_encLen ls
    simp only [PacketBuffer.read_query_name, hlen]
    norm_num
    rw [show (3592 : Nat) = 3591 + 1 from rfl,
      read_loop_first_jump buf p0 p1 h01 (by omega) 3591 p0 [] 0 (by omega)]
    rw [show (3591 : Nat) = 3590 + 1 from rfl,
      read_loop_ptr_step buf p1 p2 h12 3590 (p0 + 2) [] 1 (by omega)]
    rw [show (3590 : Nat) = 3589 + 1 from rfl,
      read_loop_ptr_step buf p2 p3 h23 3589 (p0 + 2) [] 2 (by omega)]
    rw [show (3589 : Nat) = 3588 + 1 from rfl,
      read_loop_ptr_step buf p3 p4 h34 3588 (p0 + 2) [] 3 (by omega)]
    rw [show (3588 : Nat) = 3587 + 1 from rfl,
      read_loop_ptr_step buf p4 p5 h45 3587 (p0 + 2) [] 4 (by omega)]
    rw [read_loop_labels buf ls p5 [] (p0 + 2) true 5 3587 (by omega) hs (by omega)]
    simp

set_option maxRecDepth 1000000 in
/-- Claim C5, witness: the theorem applied to concrete buffers holding a
six-pointer chain (failure) and a five-pointer chain to the name `ab`
(success). -/
theorem c5_jump_limit_witness :
    (PacketBuffer.read_query_name ⟨chainSixBuf, 12⟩).1 =
        .error .JumpLimitExceeded ∧
      (PacketBuffer.read_query_name ⟨chainFiveBuf, 12⟩).1 =
        .ok (List.intercalate [46] [[97, 98]]) :=
  ⟨c5_jump_limit.1 chainSixBuf 12 20 28 36 44 52 60 (by decide) (by decide)
      (by decide) (by decide) (by decide) (by decide) (by decide) (by decide),
    c5_jump_limit.2 chainFiveBuf 12 20 28 36 44 60 [[97, 98]] (by decide)
      (by decide) (by decide) (by decide) (by decide) (by decide) (by decide)
      (by decide)⟩

set_option maxRecDepth 100000 in
/-- Claim C6, counterexample: a packet whose header claims one question
while its question list is empty is written without complaint — `write`
returns success, refuting the claim that such a packet "is not written". -/
theorem c6_counterexample :
    (DnsPacket.write (mismatchedPacket 1) PacketBuffer.new).1 = .ok () ∧
      (mismatchedPacket 1).header.question_count ≠
        (mismatchedPacket 1).questions.length := by
  constructor
  · decide
  · decide

/-- Claim C6 (amended): `DnsPacket::write` does not enforce any relation
between the header counts and the section lengths; it serializes whatever
counts the header stores.  For every count value `c`, the packet with
question count `c` and no questions is written successfully, and the
question-count field of the output buffer (bytes 4 and 5) holds `c`
itself, not the actual section length 0. -/
theorem c6_counts_not_enforced (c : Nat) :
    (DnsPacket.write (mismatchedPacket c) PacketBuffer.new).1 = .ok () ∧
      (DnsPacket.write (mismatchedPacket c) PacketBuffer.new).2.buffer.getD 4 0 =
        (c >>> 8) % 256 ∧
      (DnsPacket.write (mismatchedPacket c) PacketBuffer.new).2.buffer.getD 5 0 =
        c % 256 ∧
      (mismatchedPacket c).questions.length = 0 := by
  have hflags : DnsHeader.get_flags (mismatchedHeader c) = 0 := by
    simp [DnsHeader.get_flags, mismatchedHeader, DnsResponseCode.toNat]
  simp only [mismatchedPacket, mismatchedHeader, DnsPacket.write, DnsHeader.write, dstep, bstep,
    writeEntries, PacketBuffer.write_u16, PacketBuffer.write, PacketBuffer.new, hflags,
    List.length_set, List.length_replicate, List.getD_eq_getElem?_getD, List.getElem?_set]
  norm_num

/-- Claim C7: `DnsResponseCode::from_u8` panics (modelled as `none`) on
every byte value outside 0..5, and consequently unpacking any flags word
whose 4-bit RCODE field is 6..15 aborts in `set_flags` instead of producing
a typed decode failure. -/
theorem c7_from_u8_panics (h : DnsHeader) (v f : Nat) (hv6 : 6 ≤ v)
    (_hv : v < 256) (hf6 : 6 ≤ f % 16) (_hf : f < 65536) :
    DnsResponseCode.from_u8 v = none ∧ DnsHeader.set_flags h f = none := by
  have hnone : ∀ w, 6 ≤ w → DnsResponseCode.from_u8 w = none := by
    intro w hw
    obtain ⟨k, rfl⟩ : ∃ k, w = k + 6 := ⟨w - 6, by omega⟩
    rfl
  refine ⟨hnone v hv6, ?_⟩
  have hand15 : f &&& 0x000F = f % 16 := by
    have h1 := Nat.and_pow_two_sub_one_eq_mod f 4
    norm_num at h1
    exact h1
  have hmod : (f % 16) % 256 = f % 16 := Nat.mod_eq_of_lt (by omega)
  simp only [DnsHeader.set_flags, hand15, hmod, hnone (f % 16) hf6]

/-- Claim C7, witness: the theorem applied at byte value 9 and flags word
14 (RCODE = 14). -/
theorem c7_from_u8_panics_witness :
    DnsResponseCode.from_u8 9 = none ∧
      DnsHeader.set_flags DnsHeader.new 14 = none :=
  c7_from_u8_panics DnsHeader.new 9 14 (by decide) (by decide) (by decide)
    (by decide)

set_option maxRecDepth 100000 in
/-- Claim C8, counterexample: the name `aa.bbb…b` (64 b's) contains a label
longer than 63 bytes, yet written from cursor position 510 the call fails
with end-of-buffer while emitting the first label — not with
invalid-label-length — and the cursor is left at 512, not at its pre-call
position 510.  The claim's universally quantified statement is false. -/
theorem c8_counterexample :
    (splitOnDot longLabelName).any (fun l => decide (l.length > 63)) = true ∧
      (nearFullBuffer.write_query_name longLabelName).1 = .error .EndOfBuffer ∧
      (nearFullBuffer.write_query_name longLabelName).2.pos = 512 ∧
      nearFullBuffer.pos = 510 := by
  decide

/-- Claim C8 (amended): when a name contains a label longer than 63 bytes
and the buffer does not run out before that label is reached (every earlier
label is at most 63 bytes and their encodings fit in the remaining
capacity), `write_query_name` fails with the invalid-label-length error and
restores the cursor to exactly its pre-call position, even though the
earlier labels' bytes have already been emitted.  If the buffer is exhausted
first, the error is end-of-buffer and the cursor is not restored (see the
counterexample). -/
theorem c8_invalid_label_restores_cursor (b : PacketBuffer) (name : List Nat)
    (ls1 : List (List Nat)) (l : List Nat) (ls2 : List (List Nat))
    (hsplit : splitOnDot name = ls1 ++ l :: ls2)
    (hshort : ∀ l' ∈ ls1, l'.length ≤ 63) (hlong : l.length > 63)
    (hfit : b.pos + labelsLen ls1 ≤ b.buffer.length) :
    (b.write_query_name name).1 = .error .InvalidLabelLength ∧
      (b.write_query_name name).2.pos = b.pos := by
  unfold PacketBuffer.write_query_name
  rw [hsplit]
  exact writeLabels_oversized b.pos ls1 l ls2 b hshort hlong hfit

set_option maxRecDepth 100000 in
/-- Claim C8, witness: the amended theorem applied to the name `a.bbb…b`
(64 b's) on a fresh buffer. -/
theorem c8_invalid_label_restores_cursor_witness :
    (PacketBuffer.new.write_query_name ([97, 46] ++ List.replicate 64 98)).1 =
        .error .InvalidLabelLength ∧
      (PacketBuffer.new.write_query_name
        ([97, 46] ++ List.replicate 64 98)).2.pos = PacketBuffer.new.pos :=
  c8_invalid_label_restores_cursor PacketBuffer.new
    ([97, 46] ++ List.replicate 64 98) [[97]] (List.replicate 64 98) []
    (by decide) (by decide) (by decide) (by decide)

/-- Claim C9: `get_nameservers` yields exactly the (delegated-domain, host)
pairs, in authority-section order, of the authority records that are NS
records whose domain is a raw byte suffix of the query name — the
specification-side reformulation `nameserversForSpec` (filter then project)
agrees with the code's `filterMap`. -/
theorem c9_nameservers_spec (p : DnsPacket) (query_name : List Nat) :
    p.get_nameservers query_name = nameserversForSpec p query_name := by
  unfold DnsPacket.get_nameservers nameserversForSpec
  induction p.authorities with
  | nil => rfl
  | cons r l ih =>
    cases r
    case NS domain host ttl =>
      simp only [List.filterMap_cons, List.filter_cons]
      by_cases hs : domain.isSuffixOf query_name
      all_goals simp [hs] at ih ⊢
      all_goals simp [ih]
    all_goals simpa [List.filterMap_cons, List.filter_cons] using ih

/-- Claim C10: an uncompressed name whose terminating zero octet is the last
byte of the 512-byte buffer decodes its labels within bounds, but the final
cursor reposition to index 512 is rejected by `seek`, so `read_query_name`
returns the position-out-of-bounds error instead of the name. -/
theorem c10_name_at_end_out_of_bounds (buf : List Nat) (pos : Nat)
    (ls : List (List Nat)) (hlen : buf.length = 512)
    (hs : storesLabels buf pos ls) (hend : pos + encLen ls = 512) :
    (PacketBuffer.read_query_name ⟨buf, pos⟩).1 =
      .error (.PositionOutOfBounds 512) := by
  have hle := storesLabels_le buf ls pos hs
  have hlt := length_lt_encLen ls
  simp only [PacketBuffer.read_query_name, hlen]
  norm_num
  rw [read_loop_labels buf ls pos [] pos false 0 3592 (by omega) hs (by omega)]
  simp only [List.nil_append, hend]
  simp [PacketBuffer.seek, hlen]

set_option maxRecDepth 1000000 in
/-- Claim C10, witness: the theorem applied to a buffer holding the name `a`
in its last three bytes (terminator at offset 511). -/
theorem c10_name_at_end_out_of_bounds_witness :
    (PacketBuffer.read_query_name ⟨nameAtEndBuf, 509⟩).1 =
      .error (.PositionOutOfBounds 512) :=
  c10_name_at_end_out_of_bounds nameAtEndBuf 509 [[97]] (by decide) (by decide)
    (by decide)
